import Mathlib

/-!
Shallow embedding of the colab-github-bridge repository:
  - src/process.py        (demo text transform: read, transform, write)
  - colab/colab_helper.py (git/GitHub pipeline helpers)
  - scripts/create_github_file.py (Contents-API publisher)

External effects (subprocess execution, HTTP calls, the filesystem, the
clock) are modelled as oracles supplied as explicit arguments; functions
that perform externally visible actions additionally return the ordered
trace of those actions.  `Except String` models Python exceptions, with
the exception's text as the payload.
-/

namespace Bridge

/-! ### src/process.py -/

/-- Python `str.strip()` on a list of characters: drop leading and trailing
whitespace.  `Char.isWhitespace` embeds Python's whitespace test. -/
def pyStripChars (l : List Char) : List Char :=
  ((l.dropWhile Char.isWhitespace).reverse.dropWhile Char.isWhitespace).reverse

/-- Python `str.strip()` (no argument) on a string. -/
def pyStrip (s : String) : String :=
  String.mk (pyStripChars s.data)

/-- Python `str.upper()`: uppercase character by character
(`Char.toUpper` embeds the per-character case map). -/
def pyUpper (s : String) : String :=
  String.mk (s.data.map Char.toUpper)

/-- `transform` from src/process.py: the comprehension
`[line.upper() for line in lines if line.strip() != ""]`,
i.e. keep the lines whose strip is nonempty, uppercased, in order. -/
def transform (lines : List String) : List String :=
  (lines.filter (fun line => pyStrip line ≠ "")).map pyUpper

/-- Python `line.rstrip, with a newline argument`: drop trailing newline characters. -/
def rstripNewline (s : String) : String :=
  String.mk ((s.data.reverse.dropWhile (fun c => c = '\n')).reverse)

/-- `read_input` from src/process.py.  The input file is modelled as
`Option (List String)`: `none` when `data/input.txt` does not exist,
`some rawLines` for its lines as iterated by Python (each still carrying
its trailing newline, which the source strips with a rstrip call). -/
def read_input (file : Option (List String)) : List String :=
  match file with
  | none => []
  | some rawLines => rawLines.map rstripNewline

/-- `write_output` from src/process.py, modelled as the full text written to
`data/output.txt`.  `now` is the `datetime.utcnow().isoformat() + "Z"`
timestamp string supplied by the clock. -/
def write_output (now : String) (transformed : List String) : String :=
  "# Generated at " ++ now ++ "\n" ++
    (if transformed.isEmpty then "NO_INPUT\n"
     else String.intercalate "\n" transformed ++ "\n")

/-- The character test "is not a newline", used to split off the first line. -/
def neNewline (c : Char) : Bool :=
  c ≠ '\n'

/-- First line of a character stream: everything before the first newline. -/
def firstLine (s : String) : String :=
  String.mk (s.data.takeWhile neNewline)

/-- Everything after the first newline of a character stream. -/
def afterFirstLine (s : String) : String :=
  String.mk ((s.data.dropWhile neNewline).drop 1)

/-! ### colab/colab_helper.py -/

/-- Result of `subprocess.run` with captured output: the modelled behaviour of
one external process execution. -/
structure ProcResult where
  returncode : Int
  stdout : String
  stderr : String
deriving DecidableEq, Repr

/-- Externally visible actions of the pipeline, in order of occurrence. -/
inductive Event where
  /-- A subprocess invocation (argument vector and working directory). -/
  | run (cmd : List String) (cwd : Option String)
  /-- A file written in the working copy. -/
  | writeFile (path : String) (content : String)
  /-- A directory tree removed. -/
  | removeTree (path : String)
  /-- An HTTP POST issued to `url`. -/
  | httpPost (url : String)
deriving DecidableEq, Repr

/-- Response to the pull-request creation POST: HTTP status, raw text body,
and the parsed JSON body modelled as a flat string-to-string object. -/
structure HttpResp where
  status : Nat
  text : String
  body : List (String × String)
deriving DecidableEq, Repr

/-- The pull-request creation request as handed to the HTTP layer. -/
structure PRRequest where
  url : String
  token : String
  title : String
  head : String
  base : String
  body : String
deriving DecidableEq, Repr

/-- Oracle for the outside world seen by colab_helper: what each subprocess
returns, whether a path exists, and what the PR endpoint answers. -/
structure World where
  exec : List String → Option String → ProcResult
  pathExists : String → Bool
  post : PRRequest → HttpResp

/-- The `RuntimeError` text `runCmd` raises:
the f-string with the space-joined command and the captured stderr. -/
def cmdFailText (cmd : List String) (stderr : String) : String :=
  "Command failed: " ++ String.intercalate " " cmd ++ "\n" ++ stderr

/-- `runCmd` embeds `run_cmd` from colab_helper.py: run the command, package
returncode/stdout/stderr; when `check` is set and the exit status is
non-zero, raise `RuntimeError` with the joined command and the stderr text.
The result is paired with the trace (the process always runs). -/
def runCmd (w : World) (cmd : List String) (cwd : Option String) (check : Bool) :
    Except String ProcResult × List Event :=
  let proc := w.exec cmd cwd
  let res :=
    if check ∧ proc.returncode ≠ 0 then
      Except.error (cmdFailText cmd proc.stderr)
    else
      Except.ok proc
  (res, [Event.run cmd cwd])

/-- Sequencing of traced, exception-raising steps: on error the remaining
steps do not run and contribute no events. -/
def andThen {α β : Type} (x : Except String α × List Event)
    (f : α → Except String β × List Event) : Except String β × List Event :=
  match x with
  | (Except.error e, tr) => (Except.error e, tr)
  | (Except.ok a, tr) =>
      match f a with
      | (r, tr2) => (r, tr ++ tr2)

/-- Executable substring test: does `needle` occur contiguously in `hay`?
Embeds Python's `in` operator on strings. -/
def strContains (hay needle : String) : Bool :=
  (List.range (hay.data.length + 1)).any
    (fun i => needle.data.isPrefixOf (hay.data.drop i))

/-- `configure_git` from colab_helper.py. -/
def configure_git (w : World) (user_name user_email : String) :
    Except String Unit × List Event :=
  andThen (runCmd w ["git", "config", "--global", "user.name", user_name] none true)
    (fun _ =>
      andThen (runCmd w ["git", "config", "--global", "user.email", user_email] none true)
        (fun _ => (Except.ok (), [])))

/-- The HTTPS URL with embedded credentials built identically by
`clone_repo` (clone_url) and `set_remote_with_token` (push_url). -/
def authRemoteUrl (username repo token : String) : String :=
  "https://" ++ username ++ ":" ++ token ++ "@github.com/" ++ username ++ "/" ++ repo ++ ".git"

/-- `clone_repo` from colab_helper.py: clobber the destination if it exists,
then clone over HTTPS with the token embedded in the URL. -/
def clone_repo (w : World) (username repo token : String) (dest : Option String) :
    Except String String × List Event :=
  let destPath := dest.getD ("/content/" ++ repo)
  let rmEvents := if w.pathExists destPath then [Event.removeTree destPath] else []
  let cloneUrl := authRemoteUrl username repo token
  match runCmd w ["git", "clone", cloneUrl, destPath] none true with
  | (Except.error e, tr) => (Except.error e, rmEvents ++ tr)
  | (Except.ok _, tr) => (Except.ok destPath, rmEvents ++ tr)

/-- `set_remote_with_token` from colab_helper.py. -/
def set_remote_with_token (w : World) (repo_dir username repo token : String) :
    Except String Unit × List Event :=
  let push_url := authRemoteUrl username repo token
  andThen (runCmd w ["git", "remote", "set-url", "origin", push_url] (some repo_dir) true)
    (fun _ => (Except.ok (), []))

/-- `create_branch` from colab_helper.py. -/
def create_branch (w : World) (repo_dir branch : String) :
    Except String Unit × List Event :=
  andThen (runCmd w ["git", "checkout", "-b", branch] (some repo_dir) true)
    (fun _ => (Except.ok (), []))

/-- The substring test `commit_changes` applies to the commit failure's
exception text: exactly the two recognized fragments. -/
def noChangesText (e : String) : Bool :=
  strContains e "nothing to commit" || strContains e "no changes added to commit"

/-- The staging command chosen by `commit_changes` (Python truthiness:
`None` or `[]` stage everything with `git add -A`). -/
def stageCmd (paths : Option (List String)) : List String :=
  match paths with
  | some ps => if ps.isEmpty then ["git", "add", "-A"] else ["git", "add"] ++ ps
  | none => ["git", "add", "-A"]

/-- `commit_changes` from colab_helper.py.  Stages the given paths, then
attempts the commit; a commit failure whose exception text contains
"nothing to commit" or "no changes added to commit" becomes the normal
result `false`, every other failure re-raises.  Returns `true` when the
commit command succeeded. -/
def commit_changes (w : World) (repo_dir message : String) (paths : Option (List String)) :
    Except String Bool × List Event :=
  andThen (runCmd w (stageCmd paths) (some repo_dir) true) (fun _ =>
    match runCmd w ["git", "commit", "-m", message] (some repo_dir) true with
    | (Except.ok _, tr) => (Except.ok true, tr)
    | (Except.error e, tr) =>
        if noChangesText e then (Except.ok false, tr)
        else (Except.error e, tr))

/-- `push_branch` from colab_helper.py. -/
def push_branch (w : World) (repo_dir branch : String) (set_upstream : Bool) :
    Except String Unit × List Event :=
  let cmd :=
    if set_upstream then ["git", "push", "--set-upstream", "origin", branch]
    else ["git", "push", "origin", branch]
  andThen (runCmd w cmd (some repo_dir) true) (fun _ => (Except.ok (), []))

/-- The pull-request creation endpoint URL built by `create_pull_request`. -/
def pullsUrl (username repo : String) : String :=
  "https://api.github.com/repos/" ++ username ++ "/" ++ repo ++ "/pulls"

/-- `create_pull_request` from colab_helper.py: POST to the pulls endpoint;
any status other than 200/201 raises with the status code and response text,
otherwise the parsed JSON body is returned. -/
def create_pull_request (w : World) (username repo token head base title bodyStr : String) :
    Except String (List (String × String)) × List Event :=
  let url := pullsUrl username repo
  let resp := w.post ⟨url, token, title, head, base, bodyStr⟩
  let res :=
    if resp.status = 200 ∨ resp.status = 201 then Except.ok resp.body
    else Except.error ("Failed to create PR: " ++ toString resp.status ++ " " ++ resp.text)
  (res, [Event.httpPost url])

/-- The structured value returned by `safe_colab_update`
(Python dict with keys repo_dir, branch, commit_made, pr_url). -/
structure UpdateResult where
  repo_dir : String
  branch : String
  commit_made : Bool
  pr_url : Option String
deriving DecidableEq, Repr

/-- `safe_colab_update` from colab_helper.py: clone, configure identity,
branch, write the demo timestamp file, commit it, rewrite the remote with
the token, push with upstream, open the PR, and return the result record.
`now` models `datetime.utcnow().isoformat()`. -/
def safe_colab_update (w : World) (now username repo token branch base : String)
    (commit_message : Option String) (repo_dest : Option String) :
    Except String UpdateResult × List Event :=
  let msg := commit_message.getD ("Colab: automated update at " ++ now ++ "Z")
  andThen (clone_repo w username repo token repo_dest) (fun repo_dir =>
    andThen (configure_git w username (username ++ "@users.noreply.github.com")) (fun _ =>
      andThen (create_branch w repo_dir branch) (fun _ =>
        let demo_file := repo_dir ++ "/colab_update.txt"
        andThen
          ((Except.ok (),
            [Event.writeFile demo_file ("Updated from Colab at " ++ now ++ "Z\n")]))
          (fun _ =>
            andThen (commit_changes w repo_dir msg (some [demo_file])) (fun commit_made =>
              andThen (set_remote_with_token w repo_dir username repo token) (fun _ =>
                andThen (push_branch w repo_dir branch true) (fun _ =>
                  andThen (create_pull_request w username repo token branch base msg
                      "Automated PR created from Colab.") (fun pr =>
                    (Except.ok
                      ⟨repo_dir, branch, commit_made, List.lookup "html_url" pr⟩,
                      [])))))))))

/-! ### scripts/create_github_file.py -/

/-- Hex digit characters used by percent-encoding (uppercase, as Python's
`urllib.parse.quote` emits). -/
def hexDigit (n : Nat) : Char :=
  "0123456789ABCDEF".data.getD n 'F'

/-- UTF-8 encoding of one character as its list of byte values. -/
def utf8Bytes (c : Char) : List Nat :=
  let n := c.toNat
  if n < 0x80 then [n]
  else if n < 0x800 then [0xC0 + n / 0x40, 0x80 + n % 0x40]
  else if n < 0x10000 then
    [0xE0 + n / 0x1000, 0x80 + (n / 0x40) % 0x40, 0x80 + n % 0x40]
  else
    [0xF0 + n / 0x40000, 0x80 + (n / 0x1000) % 0x40, 0x80 + (n / 0x40) % 0x40, 0x80 + n % 0x40]

/-- The characters `urllib.parse.quote_plus` leaves unencoded with the default
`safe` argument: ASCII letters, digits, and `_ . - ~`. -/
def isSafeChar (c : Char) : Bool :=
  c.isAlphanum || c = '_' || c = '.' || c = '-' || c = '~'

/-- `urllib.parse.quote_plus` on one character: safe characters pass through,
a space becomes `+`, everything else is percent-encoded byte by byte. -/
def quotePlusChar (c : Char) : List Char :=
  if isSafeChar c then [c]
  else if c = ' ' then ['+']
  else (utf8Bytes c).flatMap (fun b => ['%', hexDigit (b / 16), hexDigit (b % 16)])

/-- `urllib.parse.quote_plus` with the default `safe` argument. -/
def quotePlus (s : String) : String :=
  String.mk (s.data.flatMap quotePlusChar)

/-- `API_BASE` from create_github_file.py. -/
def apiBase : String := "https://api.github.com"

/-- The Contents-API URL both the probe and the write build:
`f"{API_BASE}/repos/{owner}/{repo}/contents/{quote_plus(path)}"`. -/
def contentsUrl (owner repo path : String) : String :=
  apiBase ++ "/repos/" ++ owner ++ "/" ++ repo ++ "/contents/" ++ quotePlus path

/-- Python truthiness of an optional string (`None` and `""` are falsy). -/
def pyTruthyStr (s : Option String) : Bool :=
  match s with
  | none => false
  | some v => v ≠ ""

/-- Python truthiness of an optional JSON object (`None` and `{}` are falsy). -/
def pyTruthyObj (o : Option (List (String × String))) : Bool :=
  match o with
  | none => false
  | some d => ¬ d.isEmpty

/-- The base64 alphabet. -/
def b64Alphabet : List Char :=
  "ABCDEFGHIJKLMNOPQRSTUVWXYZabcdefghijklmnopqrstuvwxyz0123456789+/".data

/-- One base64 output character. -/
def b64Char (n : Nat) : Char :=
  b64Alphabet.getD n '='

/-- Standard base64 encoding of a byte list, with `=` padding: the embedding
of `base64.b64encode`. -/
def b64encode : List Nat → List Char
  | [] => []
  | [a] => [b64Char (a / 4), b64Char (a % 4 * 16), '=', '=']
  | [a, b] => [b64Char (a / 4), b64Char (a % 4 * 16 + b / 16), b64Char (b % 16 * 4), '=']
  | a :: b :: c :: rest =>
      b64Char (a / 4) :: b64Char (a % 4 * 16 + b / 16) ::
        b64Char (b % 16 * 4 + c / 64) :: b64Char (c % 64) :: b64encode rest

/-- The body of the Contents-API PUT, modelled structurally: `branch` is in
the payload only when truthy, `sha` only when overwriting (its value is the
probe result's optional "sha" entry, matching `existing.get`). -/
structure PutPayload where
  message : String
  content : String
  branch : Option String
  sha : Option (Option String)
deriving DecidableEq, Repr

/-- Externally visible HTTP actions of the Content Publisher, in order. -/
inductive GHEvent where
  /-- The existence probe: a GET with its query parameters. -/
  | get (url : String) (params : List (String × String))
  /-- The write: a PUT with its payload. -/
  | put (url : String) (payload : PutPayload)
deriving DecidableEq, Repr

/-- Oracle for the GitHub Contents API: the responses to the GET probe and
to the PUT write. -/
structure GHWorld where
  getResp : String → List (String × String) → HttpResp
  putResp : String → PutPayload → HttpResp

/-- The query parameters of the existence probe:
`params = {"ref": branch} if branch else {}` (Python truthiness). -/
def refParams (branch : Option String) : List (String × String) :=
  if pyTruthyStr branch then [("ref", branch.getD "")] else []

/-- `file_exists` from create_github_file.py: GET the Contents URL with a
`ref` parameter when the branch is truthy; 200 returns the parsed body,
404 returns `None`; `raise_for_status` then raises exactly for statuses in
[400, 600), and every remaining status falls off the end of the function,
returning `None`. -/
def file_exists (w : GHWorld) (owner repo path : String) (branch : Option String) :
    Except String (Option (List (String × String))) × List GHEvent :=
  let url := contentsUrl owner repo path
  let params := refParams branch
  let r := w.getResp url params
  let res :=
    if r.status = 200 then Except.ok (some r.body)
    else if r.status = 404 then Except.ok none
    else if 400 ≤ r.status ∧ r.status < 600 then
      Except.error ("HTTPError: " ++ toString r.status)
    else Except.ok none
  (res, [GHEvent.get url params])

/-- `create_or_update_file` from create_github_file.py.  `token` models
`get_token()`'s result (`None`/empty aborts); the probe's truthy result
gates the FileExists guard and the `sha` field; the PUT succeeds on
200/201 and raises otherwise with the status and body. -/
def create_or_update_file (w : GHWorld) (token : Option String)
    (owner repo path : String) (content_bytes : List Nat) (message : String)
    (branch : Option String) (force_update : Bool) :
    Except String (List (String × String)) × List GHEvent :=
  if ¬ pyTruthyStr token then (Except.error "No GitHub token provided.", [])
  else
    let url := contentsUrl owner repo path
    let encoded := String.mk (b64encode content_bytes)
    match file_exists w owner repo path branch with
    | (Except.error e, tr) => (Except.error e, tr)
    | (Except.ok existing, tr) =>
        if pyTruthyObj existing then
          if ¬ force_update then
            (Except.error
              ("File already exists at " ++ path ++ " on branch " ++
                (if pyTruthyStr branch then branch.getD "" else "default") ++
                ". Use --force to update."), tr)
          else
            let payload : PutPayload :=
              ⟨message, encoded, if pyTruthyStr branch then branch else none,
                some (List.lookup "sha" (existing.getD []))⟩
            let r := w.putResp url payload
            (if r.status = 200 ∨ r.status = 201 then Except.ok r.body
             else Except.error ("GitHub API error (" ++ toString r.status ++ "): " ++ r.text),
              tr ++ [GHEvent.put url payload])
        else
          let payload : PutPayload :=
            ⟨message, encoded, if pyTruthyStr branch then branch else none, none⟩
          let r := w.putResp url payload
          (if r.status = 200 ∨ r.status = 201 then Except.ok r.body
           else Except.error ("GitHub API error (" ++ toString r.status ++ "): " ++ r.text),
            tr ++ [GHEvent.put url payload])

/-! ### Concrete oracles used to exercise the model on closed inputs -/

/-- A world in which every command succeeds except `git commit`, which exits 1
with git's "nothing to commit" text, and the PR endpoint answers 201. -/
def demoWorld : World :=
  ⟨fun cmd _ =>
      if cmd.take 2 = ["git", "commit"] then ⟨1, "", "nothing to commit"⟩ else ⟨0, "", ""⟩,
    fun _ => false,
    fun _ => ⟨201, "", [("html_url", "https://github.com/u/r/pull/1")]⟩⟩

/-- A world in which every command exits 5 with stderr "boom". -/
def boomWorld : World :=
  ⟨fun _ _ => ⟨5, "", "boom"⟩, fun _ => false, fun _ => ⟨200, "", []⟩⟩

/-- A world whose PR endpoint answers 201 with a body. -/
def prOkWorld : World :=
  ⟨fun _ _ => ⟨0, "", ""⟩, fun _ => false,
    fun _ => ⟨201, "created", [("html_url", "https://github.com/u/r/pull/2")]⟩⟩

/-- A world whose PR endpoint answers 404. -/
def prFailWorld : World :=
  ⟨fun _ _ => ⟨0, "", ""⟩, fun _ => false, fun _ => ⟨404, "nf", []⟩⟩

/-- A Contents API whose GET answers 204 (no content, not an HTTP error). -/
def gh204World : GHWorld :=
  ⟨fun _ _ => ⟨204, "", []⟩, fun _ _ => ⟨200, "", []⟩⟩

/-- A Contents API whose GET answers 200 with an empty JSON object and whose
PUT answers 201. -/
def ghEmptyObjWorld : GHWorld :=
  ⟨fun _ _ => ⟨200, "", []⟩, fun _ _ => ⟨201, "", [("content", "x")]⟩⟩

/-- A Contents API whose GET answers 200 with a sha entry. -/
def ghShaWorld : GHWorld :=
  ⟨fun _ _ => ⟨200, "", [("sha", "abc123")]⟩, fun _ _ => ⟨200, "", []⟩⟩

/-- A Contents API whose GET answers 404. -/
def gh404World : GHWorld :=
  ⟨fun _ _ => ⟨404, "", []⟩, fun _ _ => ⟨201, "", []⟩⟩

/-! ### Lemmas and claim theorems -/

theorem pyStripChars_eq_nil_iff (l : List Char) :
    pyStripChars l = [] ↔ ∀ c ∈ l, Char.isWhitespace c := by
  unfold pyStripChars
  rw [List.reverse_eq_nil_iff, List.dropWhile_eq_nil_iff]
  constructor
  · intro h c hc
    have h' : ∀ x ∈ l.dropWhile Char.isWhitespace, Char.isWhitespace x := by
      intro x hx
      exact h x (List.mem_reverse.mpr hx)
    have hsplit := List.takeWhile_append_dropWhile (p := Char.isWhitespace) (l := l)
    rw [← hsplit] at hc
    rcases List.mem_append.mp hc with h1 | h2
    · exact List.mem_takeWhile_imp h1
    · exact h' c h2
  · intro h c hc
    exact h c ((List.dropWhile_sublist _).subset (List.mem_reverse.mp hc))

theorem pyStrip_eq_empty_iff (s : String) :
    pyStrip s = "" ↔ s.data.all Char.isWhitespace = true := by
  rw [List.all_eq_true]
  constructor
  · intro h
    exact (pyStripChars_eq_nil_iff s.data).mp (congrArg String.data h)
  · intro h
    exact congrArg String.mk ((pyStripChars_eq_nil_iff s.data).mpr h)

theorem pyStrip_ne_decide (l : String) :
    (decide (pyStrip l ≠ "")) = !l.data.all Char.isWhitespace := by
  by_cases h : pyStrip l = ""
  · simp [h, (pyStrip_eq_empty_iff l).mp h]
  · have hb : l.data.all Char.isWhitespace = false := by
      rcases Bool.eq_false_or_eq_true (l.data.all Char.isWhitespace) with ht | hf
      · exact absurd ((pyStrip_eq_empty_iff l).mpr ht) h
      · exact hf
    simp [h, hb]

theorem filter_not_map_eq_filterMap {α β : Type} (p : α → Bool) (g : α → β) (l : List α) :
    (l.filter (fun a => !p a)).map g =
      l.filterMap (fun a => if p a then none else some (g a)) := by
  induction l with
  | nil => rfl
  | cons x xs ih =>
      cases hx : p x <;> simp [List.filter_cons, List.filterMap_cons, hx, ih]

/-- C7: for every list of input lines, the transform outputs exactly the
uppercased form of each line that is not empty and not whitespace-only
(equivalently: whose characters are not all whitespace), in input order,
and drops every blank or whitespace-only line. -/
theorem transform_uppercase_nonblank (lines : List String) :
    transform lines =
      lines.filterMap
        (fun line => if line.data.all Char.isWhitespace then none else some (pyUpper line)) := by
  rw [transform]
  simp only [pyStrip_ne_decide]
  exact filter_not_map_eq_filterMap _ _ lines

theorem neNewline_newline : neNewline '\n' = false := rfl

theorem neNewline_of_ne {x : Char} (hx : x ≠ '\n') : neNewline x = true := by
  simp [neNewline, hx]

theorem takeWhileNe_append (a b : List Char) (h : ∀ c ∈ a, c ≠ '\n') :
    (a ++ '\n' :: b).takeWhile neNewline = a := by
  induction a with
  | nil => rw [List.nil_append, List.takeWhile_cons, neNewline_newline]; simp
  | cons x xs ih =>
      rw [List.cons_append, List.takeWhile_cons,
        neNewline_of_ne (h x (List.mem_cons_self x xs))]
      simp [ih (fun c hc => h c (List.mem_cons_of_mem _ hc))]

theorem dropWhileNe_append (a b : List Char) (h : ∀ c ∈ a, c ≠ '\n') :
    (a ++ '\n' :: b).dropWhile neNewline = '\n' :: b := by
  induction a with
  | nil => rw [List.nil_append, List.dropWhile_cons, neNewline_newline]; simp
  | cons x xs ih =>
      rw [List.cons_append, List.dropWhile_cons,
        neNewline_of_ne (h x (List.mem_cons_self x xs))]
      simp [ih (fun c hc => h c (List.mem_cons_of_mem _ hc))]

theorem firstLine_append (header rest : String) (h : '\n' ∉ header.data) :
    firstLine (header ++ "\n" ++ rest) = header := by
  unfold firstLine
  have hdata : (header ++ "\n" ++ rest).data = header.data ++ '\n' :: rest.data := by
    simp [String.data_append]
  rw [hdata, takeWhileNe_append header.data rest.data (fun c hc he => h (he ▸ hc))]

theorem afterFirstLine_append (header rest : String) (h : '\n' ∉ header.data) :
    afterFirstLine (header ++ "\n" ++ rest) = rest := by
  unfold afterFirstLine
  have hdata : (header ++ "\n" ++ rest).data = header.data ++ '\n' :: rest.data := by
    simp [String.data_append]
  rw [hdata, dropWhileNe_append header.data rest.data (fun c hc he => h (he ▸ hc))]
  rfl

theorem header_no_newline (now : String) (h : '\n' ∉ now.data) :
    '\n' ∉ ("# Generated at " ++ now).data := by
  rw [String.data_append]
  intro hmem
  rcases List.mem_append.mp hmem with h1 | h2
  · revert h1
    decide
  · exact h h2

/-- C8: for every input, including a missing input file, the written output's
first line is the `# Generated at <timestamp>` header; it is followed by the
transformed lines one per line when any exist, and by the single sentinel
line NO_INPUT when no input lines existed. -/
theorem write_output_header_and_body (file : Option (List String)) (now : String)
    (h : '\n' ∉ now.data) :
    firstLine (write_output now (transform (read_input file))) = "# Generated at " ++ now
    ∧ (transform (read_input file) ≠ [] →
        afterFirstLine (write_output now (transform (read_input file))) =
          String.intercalate "\n" (transform (read_input file)) ++ "\n")
    ∧ (read_input file = [] →
        afterFirstLine (write_output now (transform (read_input file))) = "NO_INPUT\n") := by
  have hh := header_no_newline now h
  refine ⟨?_, ?_, ?_⟩
  · rw [write_output, firstLine_append _ _ hh]
  · intro hne
    rw [write_output, afterFirstLine_append _ _ hh]
    simp [List.isEmpty_iff, hne]
  · intro hnil
    rw [write_output, afterFirstLine_append _ _ hh]
    rw [hnil]
    rfl

/-- C8 witness at a concrete input and at a missing input file. -/
theorem write_output_header_and_body_witness :
    firstLine (write_output "2024-01-01T00:00:00Z" (transform (read_input (some ["hi\n", "\n"]))))
      = "# Generated at 2024-01-01T00:00:00Z"
    ∧ afterFirstLine (write_output "2024-01-01T00:00:00Z" (transform (read_input (some ["hi\n", "\n"]))))
      = "HI\n"
    ∧ afterFirstLine (write_output "2024-01-01T00:00:00Z" (transform (read_input none)))
      = "NO_INPUT\n" := by
  have h1 := write_output_header_and_body (some ["hi\n", "\n"]) "2024-01-01T00:00:00Z" (by decide)
  have h2 := write_output_header_and_body none "2024-01-01T00:00:00Z" (by decide)
  refine ⟨h1.1, ?_, h2.2.2 rfl⟩
  have := h1.2.1 (by decide)
  rw [this]
  rfl

/-- C9: the body written after the timestamp header line is a deterministic
function of the input alone; two runs on identical input differ at most in
the header. -/
theorem write_output_deterministic (file : Option (List String)) (now₁ now₂ : String)
    (h₁ : '\n' ∉ now₁.data) (h₂ : '\n' ∉ now₂.data) :
    afterFirstLine (write_output now₁ (transform (read_input file))) =
      afterFirstLine (write_output now₂ (transform (read_input file))) := by
  rw [write_output, write_output,
    afterFirstLine_append _ _ (header_no_newline now₁ h₁),
    afterFirstLine_append _ _ (header_no_newline now₂ h₂)]

/-- C9 witness: two runs with different timestamps on the same input. -/
theorem write_output_deterministic_witness :
    afterFirstLine (write_output "T1" (transform (read_input (some ["a\n"])))) =
      afterFirstLine (write_output "T2" (transform (read_input (some ["a\n"])))) :=
  write_output_deterministic (some ["a\n"]) "T1" "T2" (by decide) (by decide)

/-- C3 counterexample: the error raised on a checked non-zero exit does not
carry the exit status.  In `boomWorld` the command exits with status 5, yet
the raised text is exactly "Command failed: git\nboom", in which the digit 5
never occurs, so the error cannot carry the exit status. -/
theorem runCmd_error_omits_exit_status :
    (runCmd boomWorld ["git"] none true).1 = Except.error "Command failed: git\nboom"
    ∧ (boomWorld.exec ["git"] none).returncode = 5
    ∧ strContains "Command failed: git\nboom" "5" = false := by
  refine ⟨rfl, rfl, by decide⟩

/-- C3 (amended): with check set, a non-zero exit raises an error carrying the
command and the captured stderr (the exit status is not part of the error);
a zero exit returns the result; with check unset the
returncode/stdout/stderr record is returned whatever the exit status. -/
theorem runCmd_check_behavior (w : World) (cmd : List String) (cwd : Option String) :
    ((w.exec cmd cwd).returncode ≠ 0 →
      (runCmd w cmd cwd true).1 =
        Except.error (cmdFailText cmd (w.exec cmd cwd).stderr))
    ∧ ((w.exec cmd cwd).returncode = 0 →
      (runCmd w cmd cwd true).1 = Except.ok (w.exec cmd cwd))
    ∧ (runCmd w cmd cwd false).1 = Except.ok (w.exec cmd cwd) := by
  refine ⟨?_, ?_, ?_⟩
  · intro h
    simp [runCmd, h]
  · intro h
    simp [runCmd, h]
  · simp [runCmd]

/-- C3 witness: a checked failing run, a checked succeeding run, and an
unchecked failing run, on concrete worlds. -/
theorem runCmd_check_behavior_witness :
    (runCmd boomWorld ["ls"] none false).1 = Except.ok ⟨5, "", "boom"⟩
    ∧ (runCmd demoWorld ["git", "status"] none true).1 = Except.ok ⟨0, "", ""⟩ := by
  refine ⟨(runCmd_check_behavior boomWorld ["ls"] none).2.2, ?_⟩
  exact (runCmd_check_behavior demoWorld ["git", "status"] none).2.1 (by decide)

/-- C2: assuming the staging command succeeds, the commit step returns true
exactly when the commit command exits zero; when it exits non-zero, the
result is false exactly when the exception text contains one of the two
recognized substrings, and otherwise the error propagates unchanged —
the substring test is the only discriminator between the two non-error
outcomes. -/
theorem commit_changes_boolean_classification (w : World) (repo_dir message : String)
    (paths : Option (List String))
    (hstage : (w.exec (stageCmd paths) (some repo_dir)).returncode = 0) :
    ((w.exec ["git", "commit", "-m", message] (some repo_dir)).returncode = 0 →
      (commit_changes w repo_dir message paths).1 = Except.ok true)
    ∧ ((w.exec ["git", "commit", "-m", message] (some repo_dir)).returncode ≠ 0 →
      noChangesText
          (cmdFailText ["git", "commit", "-m", message]
            (w.exec ["git", "commit", "-m", message] (some repo_dir)).stderr) = true →
      (commit_changes w repo_dir message paths).1 = Except.ok false)
    ∧ ((w.exec ["git", "commit", "-m", message] (some repo_dir)).returncode ≠ 0 →
      noChangesText
          (cmdFailText ["git", "commit", "-m", message]
            (w.exec ["git", "commit", "-m", message] (some repo_dir)).stderr) = false →
      (commit_changes w repo_dir message paths).1 =
        Except.error
          (cmdFailText ["git", "commit", "-m", message]
            (w.exec ["git", "commit", "-m", message] (some repo_dir)).stderr)) := by
  refine ⟨?_, ?_, ?_⟩
  · intro h0
    simp [commit_changes, andThen, runCmd, hstage, h0]
  · intro hne hsub
    simp [commit_changes, andThen, runCmd, hstage, hne, hsub]
  · intro hne hsub
    simp [commit_changes, andThen, runCmd, hstage, hne, hsub]

/-- C2 witness: in `demoWorld` the commit exits 1 with "nothing to commit",
and the step reports false without raising. -/
theorem commit_changes_boolean_classification_witness :
    (commit_changes demoWorld "/content/r" "m" none).1 = Except.ok false := by
  have h := commit_changes_boolean_classification demoWorld "/content/r" "m" none (by decide)
  exact h.2.1 (by decide) (by decide)

/-- C6: pull-request creation succeeds exactly on HTTP 200 or 201, returning
the parsed body; every other status raises an error text carrying the status
code and the response body. -/
theorem create_pull_request_status_gate (w : World)
    (username repo token head base title bodyStr : String) :
    ((w.post ⟨pullsUrl username repo, token, title, head, base, bodyStr⟩).status = 200 ∨
        (w.post ⟨pullsUrl username repo, token, title, head, base, bodyStr⟩).status = 201 →
      (create_pull_request w username repo token head base title bodyStr).1 =
        Except.ok (w.post ⟨pullsUrl username repo, token, title, head, base, bodyStr⟩).body)
    ∧ (¬((w.post ⟨pullsUrl username repo, token, title, head, base, bodyStr⟩).status = 200 ∨
          (w.post ⟨pullsUrl username repo, token, title, head, base, bodyStr⟩).status = 201) →
      (create_pull_request w username repo token head base title bodyStr).1 =
        Except.error
          ("Failed to create PR: " ++
            toString (w.post ⟨pullsUrl username repo, token, title, head, base, bodyStr⟩).status
            ++ " " ++
            (w.post ⟨pullsUrl username repo, token, title, head, base, bodyStr⟩).text)) := by
  constructor
  · intro h
    simp [create_pull_request, h]
  · intro h
    simp [create_pull_request, h]

/-- C6 witness: a 201 response returns the parsed body; a 404 response raises
with the status code and body. -/
theorem create_pull_request_status_gate_witness :
    (create_pull_request prOkWorld "u" "r" "t" "h" "main" "T" "B").1 =
      Except.ok [("html_url", "https://github.com/u/r/pull/2")]
    ∧ (create_pull_request prFailWorld "u" "r" "t" "h" "main" "T" "B").1 =
      Except.error "Failed to create PR: 404 nf" := by
  constructor
  · exact (create_pull_request_status_gate prOkWorld "u" "r" "t" "h" "main" "T" "B").1
      (Or.inr rfl)
  · exact (create_pull_request_status_gate prFailWorld "u" "r" "t" "h" "main" "T" "B").2
      (by decide)

/-- C5 counterexample: a probe response with status 204 is neither 200 nor
404, yet the probe returns normally with "file does not exist" (None) rather
than failing: `raise_for_status` raises only for statuses in [400, 600), and
the function then falls off its end returning None. -/
theorem file_exists_status_204_not_failure :
    (gh204World.getResp (contentsUrl "o" "r" "p") (refParams none)).status = 204
    ∧ (file_exists gh204World "o" "r" "p" none).1 = Except.ok none :=
  ⟨rfl, rfl⟩

/-- C5 (amended): the probe yields "exists" with the parsed body on 200 and
"does not exist" on 404; a status in [400, 600) other than those is a hard
failure; every remaining status (e.g. 204 or a 3xx) yields "does not exist". -/
theorem file_exists_status_classification (w : GHWorld) (owner repo path : String)
    (branch : Option String) (r : HttpResp)
    (hr : w.getResp (contentsUrl owner repo path) (refParams branch) = r) :
    (r.status = 200 → (file_exists w owner repo path branch).1 = Except.ok (some r.body))
    ∧ (r.status = 404 → (file_exists w owner repo path branch).1 = Except.ok none)
    ∧ (r.status ≠ 200 → 400 ≤ r.status → r.status < 600 → r.status ≠ 404 →
        (file_exists w owner repo path branch).1 =
          Except.error ("HTTPError: " ++ toString r.status))
    ∧ (r.status ≠ 200 → r.status ≠ 404 → ¬(400 ≤ r.status ∧ r.status < 600) →
        (file_exists w owner repo path branch).1 = Except.ok none) := by
  refine ⟨?_, ?_, ?_, ?_⟩
  · intro h
    simp [file_exists, hr, h]
  · intro h
    simp [file_exists, hr, h]
  · intro h1 h2 h3 h4
    simp [file_exists, hr, h1, h2, h3, h4]
  · intro h1 h2 h3
    simp [file_exists, hr, h1, h2, h3]

/-- C5 witness: a 200 probe returns the body with its sha; a 404 probe
reports "does not exist". -/
theorem file_exists_status_classification_witness :
    (file_exists ghShaWorld "o" "r" "p" none).1 = Except.ok (some [("sha", "abc123")])
    ∧ (file_exists gh404World "o" "r" "p" none).1 = Except.ok none := by
  constructor
  · exact (file_exists_status_classification ghShaWorld "o" "r" "p" none
      ⟨200, "", [("sha", "abc123")]⟩ rfl).1 rfl
  · exact (file_exists_status_classification gh404World "o" "r" "p" none
      ⟨404, "", []⟩ rfl).2.1 rfl

/-- C4 counterexample: a probe answering 200 — which per the probe's contract
reports the file present — with an empty JSON object body, and no --force:
the guard does not fire (Python truthiness of the empty dict), no FileExists
error is raised, and a PUT is issued. -/
theorem create_file_empty_object_bypasses_guard :
    (ghEmptyObjWorld.getResp (contentsUrl "o" "r" "p") (refParams none)).status = 200
    ∧ (create_or_update_file ghEmptyObjWorld (some "t") "o" "r" "p" [] "m" none false).1 =
        Except.ok [("content", "x")]
    ∧ (create_or_update_file ghEmptyObjWorld (some "t") "o" "r" "p" [] "m" none false).2 =
        [GHEvent.get (contentsUrl "o" "r" "p") [],
          GHEvent.put (contentsUrl "o" "r" "p") ⟨"m", "", none, none⟩] :=
  ⟨rfl, rfl, rfl⟩

/-- C4 (amended): when the probe reports the file present with a non-empty
response object and the caller did not request an overwrite, the run fails
with the FileExists error naming the path and the branch, and the trace holds
only the probe's GET — no PUT is issued. -/
theorem create_file_exists_guard (w : GHWorld) (token : Option String)
    (owner repo path : String) (content_bytes : List Nat) (message : String)
    (branch : Option String)
    (htok : pyTruthyStr token = true)
    (hstatus : (w.getResp (contentsUrl owner repo path) (refParams branch)).status = 200)
    (hbody : (w.getResp (contentsUrl owner repo path) (refParams branch)).body ≠ []) :
    create_or_update_file w token owner repo path content_bytes message branch false =
      (Except.error
        ("File already exists at " ++ path ++ " on branch " ++
          (if pyTruthyStr branch then branch.getD "" else "default") ++
          ". Use --force to update."),
        [GHEvent.get (contentsUrl owner repo path) (refParams branch)]) := by
  simp [create_or_update_file, file_exists, pyTruthyObj, htok, hstatus, hbody]

/-- C4 witness: probing an existing file (200 with a sha) and writing without
force fails with the FileExists text and issues only the GET. -/
theorem create_file_exists_guard_witness :
    create_or_update_file ghShaWorld (some "t") "o" "r" "dir/f.txt" [1, 2] "m" (some "dev")
        false =
      (Except.error "File already exists at dir/f.txt on branch dev. Use --force to update.",
        [GHEvent.get (contentsUrl "o" "r" "dir/f.txt") [("ref", "dev")]]) := by
  have h := create_file_exists_guard ghShaWorld (some "t") "o" "r" "dir/f.txt" [1, 2] "m"
    (some "dev") (by decide) rfl (by decide)
  exact h

theorem hexDigit_ne (n : Nat) : hexDigit n ≠ '/' ∧ hexDigit n ≠ ' ' := by
  unfold hexDigit
  rcases Nat.lt_or_ge n 16 with h | h
  · interval_cases n <;> exact ⟨by decide, by decide⟩
  · have hlen : ("0123456789ABCDEF".data).length ≤ n := by
      have h16 : ("0123456789ABCDEF".data).length = 16 := rfl
      omega
    rw [List.getD_eq_default _ _ hlen]
    exact ⟨by decide, by decide⟩

theorem quotePlusChar_ok (c c' : Char) (h : c' ∈ quotePlusChar c) :
    c' ≠ '/' ∧ c' ≠ ' ' := by
  unfold quotePlusChar at h
  by_cases hs : isSafeChar c = true
  · rw [if_pos hs] at h
    have hcc : c' = c := by simpa using h
    subst hcc
    constructor
    · intro he
      rw [he] at hs
      exact absurd hs (by decide)
    · intro he
      rw [he] at hs
      exact absurd hs (by decide)
  · rw [if_neg hs] at h
    by_cases hsp : c = ' '
    · rw [if_pos hsp] at h
      have hcc : c' = '+' := by simpa using h
      subst hcc
      exact ⟨by decide, by decide⟩
    · rw [if_neg hsp] at h
      rcases List.mem_flatMap.mp h with ⟨b, _, hb⟩
      have hcc : c' = '%' ∨ c' = hexDigit (b / 16) ∨ c' = hexDigit (b % 16) := by
        simpa using hb
      rcases hcc with rfl | rfl | rfl
      · exact ⟨by decide, by decide⟩
      · exact hexDigit_ne _
      · exact hexDigit_ne _

theorem quotePlus_no_slash_no_space (s : String) :
    ∀ c ∈ (quotePlus s).data, c ≠ '/' ∧ c ≠ ' ' := by
  intro c hc
  have hc' : c ∈ s.data.flatMap quotePlusChar := hc
  rcases List.mem_flatMap.mp hc' with ⟨a, _, ha⟩
  exact quotePlusChar_ok a c ha

/-- C10: the publisher quote_plus-encodes the whole target path, so a slash
becomes %2F and a space becomes +, and the encoded segment never contains a
literal slash or space; the probe's GET uses exactly this URL, and every PUT
the publisher can issue uses exactly this URL. -/
theorem contents_url_quote_plus_encoding (w : GHWorld) (token : Option String)
    (owner repo path : String) (content_bytes : List Nat) (message : String)
    (branch : Option String) (force_update : Bool) :
    (∀ c ∈ (quotePlus path).data, c ≠ '/' ∧ c ≠ ' ')
    ∧ quotePlusChar '/' = ['%', '2', 'F']
    ∧ quotePlusChar ' ' = ['+']
    ∧ (file_exists w owner repo path branch).2 =
        [GHEvent.get (contentsUrl owner repo path) (refParams branch)]
    ∧ (∀ u payload,
        GHEvent.put u payload ∈
          (create_or_update_file w token owner repo path content_bytes message branch
            force_update).2 →
        u = contentsUrl owner repo path) := by
  refine ⟨quotePlus_no_slash_no_space path, by decide, by decide, rfl, ?_⟩
  intro u payload hmem
  by_cases ht : pyTruthyStr token = true
  · rw [create_or_update_file, if_neg (by simp [ht])] at hmem
    rw [show file_exists w owner repo path branch =
        ((file_exists w owner repo path branch).1,
          [GHEvent.get (contentsUrl owner repo path) (refParams branch)]) from rfl] at hmem
    rcases hres : (file_exists w owner repo path branch).1 with e | ex <;> rw [hres] at hmem
    · simp at hmem
    · by_cases hobj : pyTruthyObj ex = true
      · by_cases hf : force_update = true
        · simp [hobj, hf] at hmem
          exact hmem.1
        · simp [hobj, hf] at hmem
      · simp [hobj] at hmem
        exact hmem.1
  · rw [create_or_update_file, if_pos ht] at hmem
    simp at hmem

/-- C10 witness: a path with a directory separator and a space is sent as a
single encoded segment. -/
theorem contents_url_quote_plus_encoding_witness :
    quotePlus "dir/file name.txt" = "dir%2Ffile+name.txt"
    ∧ ('/' ∉ (quotePlus "dir/file name.txt").data)
    ∧ (file_exists ghShaWorld "o" "r" "dir/file name.txt" none).2 =
        [GHEvent.get (contentsUrl "o" "r" "dir/file name.txt") []] := by
  have h := contents_url_quote_plus_encoding ghShaWorld (some "t") "o" "r" "dir/file name.txt"
    [] "m" none false
  refine ⟨by decide, ?_, h.2.2.2.1⟩
  intro hmem
  exact absurd rfl ((h.1 '/' hmem).1)

/-- C1: when every step of the orchestrated update succeeds except the commit
command, which exits non-zero with a recognized "nothing to commit" text
(so commit_made is false), the pipeline is not short-circuited: the
authenticated-remote rewrite, the push and the pull-request POST all happen,
and the returned record carries the repository location, the branch, the
commit_made boolean and the PR URL extracted from the response. -/
theorem safe_colab_update_empty_commit_proceeds (w : World)
    (now username repo token branch base msg d : String)
    (hpath : w.pathExists d = false)
    (h1 : (w.exec ["git", "clone", authRemoteUrl username repo token, d] none).returncode = 0)
    (h2 : (w.exec ["git", "config", "--global", "user.name", username] none).returncode = 0)
    (h3 : (w.exec ["git", "config", "--global", "user.email",
        username ++ "@users.noreply.github.com"] none).returncode = 0)
    (h4 : (w.exec ["git", "checkout", "-b", branch] (some d)).returncode = 0)
    (h5 : (w.exec ["git", "add", d ++ "/colab_update.txt"] (some d)).returncode = 0)
    (h6 : (w.exec ["git", "commit", "-m", msg] (some d)).returncode ≠ 0)
    (h7 : noChangesText
        (cmdFailText ["git", "commit", "-m", msg]
          (w.exec ["git", "commit", "-m", msg] (some d)).stderr) = true)
    (h8 : (w.exec ["git", "remote", "set-url", "origin", authRemoteUrl username repo token]
        (some d)).returncode = 0)
    (h9 : (w.exec ["git", "push", "--set-upstream", "origin", branch] (some d)).returncode = 0)
    (h10 : (w.post ⟨pullsUrl username repo, token, msg, branch, base,
        "Automated PR created from Colab."⟩).status = 201) :
    safe_colab_update w now username repo token branch base (some msg) (some d) =
      (Except.ok
        ⟨d, branch, false,
          List.lookup "html_url"
            (w.post ⟨pullsUrl username repo, token, msg, branch, base,
              "Automated PR created from Colab."⟩).body⟩,
        [Event.run ["git", "clone", authRemoteUrl username repo token, d] none,
          Event.run ["git", "config", "--global", "user.name", username] none,
          Event.run ["git", "config", "--global", "user.email",
            username ++ "@users.noreply.github.com"] none,
          Event.run ["git", "checkout", "-b", branch] (some d),
          Event.writeFile (d ++ "/colab_update.txt") ("Updated from Colab at " ++ now ++ "Z\n"),
          Event.run ["git", "add", d ++ "/colab_update.txt"] (some d),
          Event.run ["git", "commit", "-m", msg] (some d),
          Event.run ["git", "remote", "set-url", "origin", authRemoteUrl username repo token]
            (some d),
          Event.run ["git", "push", "--set-upstream", "origin", branch] (some d),
          Event.httpPost (pullsUrl username repo)]) := by
  simp [safe_colab_update, clone_repo, configure_git, create_branch, commit_changes,
    set_remote_with_token, push_branch, create_pull_request, runCmd, andThen, stageCmd,
    hpath, h1, h2, h3, h4, h5, h6, h7, h8, h9, h10]

/-- C1 witness: in `demoWorld` only the commit fails (with "nothing to
commit"); the orchestrated run returns commit_made = false together with the
repository location, branch and PR URL. -/
theorem safe_colab_update_empty_commit_proceeds_witness :
    (safe_colab_update demoWorld "T" "u" "r" "t" "b" "main" (some "m")
        (some "/content/r")).1 =
      Except.ok ⟨"/content/r", "b", false, some "https://github.com/u/r/pull/1"⟩ := by
  have h := safe_colab_update_empty_commit_proceeds demoWorld "T" "u" "r" "t" "b" "main" "m"
    "/content/r" rfl (by decide) (by decide) (by decide) (by decide) (by decide) (by decide)
    (by decide) (by decide) (by decide) rfl
  rw [h]
  rfl

end Bridge
